import Mathlib

/-!
Shallow embedding of the Monitron probe engine
(services/worker/app: config.py, checks.py, main.py, scheduler.py, models.py).

Timestamps and durations are modelled as exact rationals (seconds since an
arbitrary epoch); Python `datetime` arithmetic with `timedelta` corresponds to
rational addition.  Python `Optional` values are `Option`, Python truthiness of
optional ints / strings is made explicit by `truthy_id` / `truthy_str`.
-/

namespace Monitron

/-- config.py `FailureRetryStage`: a contiguous block of retry attempts.
`attempts = none` marks the unbounded terminal stage. -/
structure FailureRetryStage where
  attempts : Option Int
  interval_seconds : ℚ
  deriving DecidableEq

/-- config.py `Settings` (the fields the probe engine reads). -/
structure Settings where
  max_concurrency : Nat
  jitter_seconds : ℚ
  loop_interval : ℚ
  user_agent : String
  scheduler_poll_interval : ℚ
  scheduler_claim_seconds : ℚ
  failure_retry_stages : List FailureRetryStage
  sustained_down_threshold : Int
  sustained_down_window_minutes : Int
  smtp_host : Option String
  smtp_port : Nat
  smtp_use_tls : Bool
  smtp_use_ssl : Bool
  alert_email_from : Option String
  smtp_timeout : ℚ
  deriving DecidableEq

/-- config.py defaults: stages `(2,30s) (5,60s) (12,120s) (∞,300s)`,
threshold 10, window 60 minutes, SMTP unset. -/
def defaultSettings : Settings :=
  { max_concurrency := 5
    jitter_seconds := 1/5
    loop_interval := 1
    user_agent := "MonitronWorker/0.1"
    scheduler_poll_interval := 1
    scheduler_claim_seconds := 30
    failure_retry_stages :=
      [ { attempts := some 2, interval_seconds := 30 }
      , { attempts := some 5, interval_seconds := 60 }
      , { attempts := some 12, interval_seconds := 120 }
      , { attempts := none, interval_seconds := 300 } ]
    sustained_down_threshold := 10
    sustained_down_window_minutes := 60
    smtp_host := none
    smtp_port := 587
    smtp_use_tls := true
    smtp_use_ssl := false
    alert_email_from := none
    smtp_timeout := 10 }

/-- The stage walk inside checks.py `determine_failure_retry_interval`:
`for stage in stages: if attempts is None or remaining <= attempts: return
max(interval, 1.0); remaining -= attempts`, falling through to the default. -/
def walk_stages (stages : List FailureRetryStage) (remaining : Int)
    (default_interval : ℚ) : ℚ :=
  match stages with
  | [] => default_interval
  | stage :: rest =>
    match stage.attempts with
    | none => max stage.interval_seconds 1
    | some attempts =>
      if remaining ≤ attempts then max stage.interval_seconds 1
      else walk_stages rest (remaining - attempts) default_interval

/-- checks.py `determine_failure_retry_interval`. -/
def determine_failure_retry_interval (s : Settings) (consecutive_failures : Int)
    (default_interval : ℚ) : ℚ :=
  if consecutive_failures ≤ 0 then default_interval
  else walk_stages s.failure_retry_stages consecutive_failures default_interval

/-- Modelled from the spec's words for `failure_retry_interval(n, default)`
(spec §4.3): starting from `remaining = n` walk the stages, for a bounded
stage return its interval when `remaining ≤ attempts_k` else subtract and
continue, return the terminal unbounded stage's interval otherwise, default
for `n ≤ 0`, intervals floored at 1 second.  Used only to compare against the
source-derived `determine_failure_retry_interval`. -/
def spec_stage_walk (dflt : ℚ) : List FailureRetryStage → Int → ℚ
  | [], _ => dflt
  | stage :: rest, remaining =>
    match stage.attempts with
    | some attempts_k =>
      if remaining ≤ attempts_k then max stage.interval_seconds 1
      else spec_stage_walk dflt rest (remaining - attempts_k)
    | none => max stage.interval_seconds 1

/-- Modelled from the spec's words, continued: default below zero, walk
otherwise. -/
def failure_retry_interval_spec (stages : List FailureRetryStage) (n : Int)
    (dflt : ℚ) : ℚ :=
  if n ≤ 0 then dflt else spec_stage_walk dflt stages n

/-- models.py `Monitor` row.  `next_run_at` is declared non-optional in the
model (`datetime`, NOT NULL) but the runtime attribute can be assigned `None`
by Python code, so the embedding carries `Option ℚ` and the non-null property
is stated as a theorem. -/
structure Monitor where
  id : Option Nat
  name : String
  url : String
  method : String
  interval_seconds : Int
  timeout_seconds : Int
  enabled : Bool
  owner_id : Option Nat
  next_run_at : Option ℚ
  last_checked_at : Option ℚ
  last_status_code : Option Int
  last_latency_ms : Option Int
  last_outcome : Option String
  consecutive_failures : Int
  created_at : ℚ
  updated_at : ℚ
  deriving DecidableEq

/-- models.py `MonitorCheck` row. -/
structure MonitorCheck where
  id : Option Nat
  monitor_id : Nat
  occurred_at : ℚ
  outcome : String
  status_code : Option Int
  latency_ms : Option Int
  error_message : Option String
  deriving DecidableEq

/-- models.py `User` row (fields the worker reads). -/
structure User where
  id : Option Nat
  email : String
  full_name : Option String
  role : String
  is_active : Bool
  deriving DecidableEq

/-- Python truthiness of an optional integer id: `None` and `0` are falsy. -/
def truthy_id : Option Nat → Bool
  | none => false
  | some n => n != 0

/-- Python truthiness of an optional string: `None` and `""` are falsy. -/
def truthy_str : Option String → Bool
  | none => false
  | some s => s != ""

/-- checks.py `CheckResult`. -/
structure CheckResult where
  outcome : String
  completed_at : ℚ
  status_code : Option Int
  latency_ms : Option Int
  error_message : Option String
  deriving DecidableEq

/-- What the probe client observed: either an HTTP response (status code and
elapsed integer milliseconds) or a transport/timeout error (httpx
`TimeoutException` / `RequestError`), stringified. -/
inductive ProbeOutcome where
  | response (status_code : Int) (elapsed_ms : Nat)
  | transport_error (message : String)
  deriving DecidableEq

/-- checks.py `run_http_check`: classification of one probe.  On a response,
`outcome = "up"` iff `200 ≤ status_code < 400`, latency is the elapsed
integer milliseconds, no error message; on a transport error the initial
values `outcome = "down"`, `status_code = None`, `latency_ms = None` survive
and the error is stringified. -/
def run_http_check (ev : ProbeOutcome) (completed_at : ℚ) : CheckResult :=
  match ev with
  | .response status elapsed_ms =>
    { outcome := if 200 ≤ status ∧ status < 400 then "up" else "down"
      completed_at := completed_at
      status_code := some status
      latency_ms := some (elapsed_ms : Int)
      error_message := none }
  | .transport_error msg =>
    { outcome := "down"
      completed_at := completed_at
      status_code := none
      latency_ms := none
      error_message := some msg }

/-- checks.py `schedule_next_run`: clock value and the drawn jitter are
explicit parameters (`utcnow()` and `random.uniform(-J, +J)`). -/
def schedule_next_run (s : Settings) (monitor : Monitor) (outcome : String)
    (now jitter : ℚ) : ℚ :=
  let interval_seconds : ℚ :=
    if outcome = "down" then
      determine_failure_retry_interval s monitor.consecutive_failures
        (monitor.interval_seconds : ℚ)
    else (monitor.interval_seconds : ℚ)
  now + interval_seconds + jitter

/-- checks.py `persist_check_result`, the pure state transition: the reloaded
monitor row plus the probe result yield the committed monitor row and the
inserted `MonitorCheck` row.  `consecutive_failures` is reset or incremented
BEFORE `schedule_next_run` reads it. -/
def persist_check_result (s : Settings) (db_monitor : Monitor)
    (result : CheckResult) (now jitter : ℚ) : Monitor × MonitorCheck :=
  let cf : Int :=
    if result.outcome = "up" then 0 else db_monitor.consecutive_failures + 1
  let m1 : Monitor :=
    { db_monitor with
      last_checked_at := some result.completed_at
      last_status_code := result.status_code
      last_latency_ms := result.latency_ms
      last_outcome := some result.outcome
      updated_at := now
      consecutive_failures := cf }
  let m2 : Monitor :=
    { m1 with next_run_at := some (schedule_next_run s m1 result.outcome now jitter) }
  let check_entry : MonitorCheck :=
    { id := none
      monitor_id := db_monitor.id.getD 0
      occurred_at := result.completed_at
      outcome := result.outcome
      status_code := result.status_code
      latency_ms := result.latency_ms
      error_message := result.error_message }
  (m2, check_entry)

/-- The alert email assembled by checks.py `send_sustained_downtime_email`. -/
structure EmailMessage where
  subject : String
  from_addr : String
  to_addr : String
  body : String
  deriving DecidableEq

/-- checks.py `send_sustained_downtime_email` message construction (the SMTP
transport itself is an external effect; the message is the observable). -/
def build_sustained_downtime_email (s : Settings) (monitor : Monitor)
    (result : CheckResult) (recipient : String) (down_checks : Nat)
    (window_minutes : Int) : EmailMessage :=
  let latest_status : String :=
    match result.status_code with
    | some code =>
      if code ≠ 0 then toString code ++ " (" ++ result.outcome ++ ")"
      else result.outcome
    | none => result.outcome
  let error_line : String :=
    match result.error_message with
    | some msg => if msg ≠ "" then "\nLast error: " ++ msg else ""
    | none => ""
  { subject := "[Monitron] Monitor '" ++ monitor.name ++ "' appears down"
    from_addr := s.alert_email_from.getD ""
    to_addr := recipient
    body :=
      "Hello,\n\nWe detected " ++ toString down_checks ++
      " failed checks for '" ++ monitor.name ++ "' within the last " ++
      toString window_minutes ++ " minutes.\nURL: " ++ monitor.url ++
      "\nLatest status: " ++ latest_status ++ error_line ++
      "\n\nWe'll keep probing on an accelerated schedule until the service recovers.\n— Monitron" }

/-- The alert window count in checks.py `maybe_send_sustained_down_alert`:
`MonitorCheck` rows with this monitor id, outcome `"down"` and
`occurred_at ≥ window_start`. -/
def count_recent_down_checks (checks : List MonitorCheck) (monitor_id : Nat)
    (window_start : ℚ) : Nat :=
  (checks.filter fun c =>
    c.monitor_id == monitor_id && c.outcome == "down" &&
      decide (window_start ≤ c.occurred_at)).length

/-- checks.py `lookup_owner_email`: primary-key lookup of the owner row,
returning its email attribute; `None` when `owner_id` is falsy or the row is
missing. -/
def lookup_owner_email (users : List User) (owner_id : Option Nat) :
    Option String :=
  if ¬ truthy_id owner_id then none
  else
    match users.find? (fun u => u.id == owner_id) with
    | none => none
    | some owner => some owner.email

/-- checks.py `maybe_send_sustained_down_alert`: the guard chain and the
post-insert window count; `some` is the dispatched email, `none` means no
email was attempted. -/
def maybe_send_sustained_down_alert (s : Settings) (checks : List MonitorCheck)
    (users : List User) (monitor : Monitor) (result : CheckResult) (now : ℚ) :
    Option EmailMessage :=
  let threshold := s.sustained_down_threshold
  let window_minutes := s.sustained_down_window_minutes
  if threshold ≤ 0 ∨ window_minutes ≤ 0 then none
  else if ¬ truthy_id monitor.id ∨ ¬ truthy_id monitor.owner_id then none
  else if ¬ truthy_str s.smtp_host ∨ ¬ truthy_str s.alert_email_from then none
  else
    let window_start : ℚ := now - 60 * (window_minutes : ℚ)
    let down_checks := count_recent_down_checks checks (monitor.id.getD 0) window_start
    if (down_checks : Int) ≠ threshold then none
    else
      let recipient := lookup_owner_email users monitor.owner_id
      if ¬ truthy_str recipient then none
      else
        some (build_sustained_downtime_email s monitor result (recipient.getD "")
          down_checks window_minutes)

/-- The tail of checks.py `persist_check_result`: commit the monitor update
and the check insertion, then consult the alert engine on a down outcome.
The returned triple is (committed monitor row, check table after insertion,
dispatched email if any). -/
def persist_and_alert (s : Settings) (checks : List MonitorCheck)
    (users : List User) (db_monitor : Monitor) (result : CheckResult)
    (now jitter : ℚ) : Monitor × List MonitorCheck × Option EmailMessage :=
  let prs := persist_check_result s db_monitor result now jitter
  let checks2 := checks ++ [prs.2]
  let email :=
    if result.outcome = "down" then
      maybe_send_sustained_down_alert s checks2 users prs.1 result now
    else none
  (prs.1, checks2, email)

/-- main.py `schedule_next_run`: plain interval plus jitter, no backoff. -/
def main_schedule_next_run (monitor : Monitor) (now jitter : ℚ) : ℚ :=
  now + (monitor.interval_seconds : ℚ) + jitter

/-- main.py `update_monitor_state`, the legacy in-process worker's state
transition.  Note the disabled branch assigns `next_run_at := None`. -/
def update_monitor_state (db_monitor : Monitor) (status_code : Option Int)
    (latency_ms : Option Int) (outcome : String)
    (error_message : Option String) (now jitter : ℚ) :
    Monitor × MonitorCheck :=
  let cf : Int :=
    if outcome = "up" then 0 else db_monitor.consecutive_failures + 1
  let m1 : Monitor :=
    { db_monitor with
      last_checked_at := some now
      last_status_code := status_code
      last_latency_ms := latency_ms
      last_outcome := some outcome
      updated_at := now
      consecutive_failures := cf }
  let m2 : Monitor :=
    { m1 with
      next_run_at :=
        if m1.enabled then some (main_schedule_next_run m1 now jitter)
        else none }
  let check_entry : MonitorCheck :=
    { id := none
      monitor_id := db_monitor.id.getD 0
      occurred_at := now
      outcome := outcome
      status_code := status_code
      latency_ms := latency_ms
      error_message := error_message }
  (m2, check_entry)

/-- The SELECT built by scheduler.py `claim_due_monitors`, as data: filters,
ordering, limit and the `with_for_update(skip_locked=True)` lock mode. -/
structure MonitorSelect where
  where_enabled : Bool
  where_next_run_at_le : ℚ
  order_by_next_run_at : Bool
  select_limit : Nat
  for_update_skip_locked : Bool
  deriving DecidableEq

/-- The statement scheduler.py `claim_due_monitors` constructs. -/
def claim_select (now : ℚ) (limit : Nat) : MonitorSelect :=
  { where_enabled := true
    where_next_run_at_le := now
    order_by_next_run_at := true
    select_limit := limit
    for_update_skip_locked := true }

/-- The scheduler's due predicate: `enabled IS TRUE AND next_run_at <= now`
(a SQL NULL `next_run_at` compares unknown, excluding the row). -/
def monitor_due (now : ℚ) (m : Monitor) : Bool :=
  m.enabled &&
    (match m.next_run_at with
     | some t => decide (t ≤ now)
     | none => false)

/-- Sort key for `ORDER BY next_run_at` (all selected rows carry a value). -/
def next_run_key (m : Monitor) : ℚ := m.next_run_at.getD 0

/-- Single-session semantics of executing `claim_select`: the due rows,
ordered by `next_run_at` ascending, truncated at the limit. -/
def select_due_monitors (db : List Monitor) (now : ℚ) (limit : Nat) :
    List Monitor :=
  ((List.insertionSort (fun a b => next_run_key a ≤ next_run_key b)
      (db.filter (monitor_due now))).take limit)

/-- The per-row claim write in scheduler.py `claim_due_monitors`. -/
def apply_claim (claim_until now : ℚ) (m : Monitor) : Monitor :=
  { m with next_run_at := some claim_until, updated_at := now }

/-- scheduler.py `claim_due_monitors`: select due rows, skip rows without an
id, advance `next_run_at` to `now + scheduler_claim_seconds` and stamp
`updated_at`; commit only when at least one id was claimed, otherwise roll
back leaving the table untouched.  Returns (table after the transaction,
claimed ids). -/
def claim_due_monitors (s : Settings) (db : List Monitor) (now : ℚ)
    (limit : Nat) : List Monitor × List Nat :=
  let claim_until := now + s.scheduler_claim_seconds
  let selected := select_due_monitors db now limit
  let claimed_ids := selected.filterMap (fun m => m.id)
  let new_db :=
    if claimed_ids.isEmpty then db
    else
      db.map fun m =>
        match m.id with
        | some i =>
          if claimed_ids.contains i then apply_claim claim_until now m else m
        | none => m
  (new_db, claimed_ids)

/-- scheduler.py `dispatch_due_checks`: the fetch limit handed to
`claim_due_monitors` is `max_concurrency * 4`. -/
def fetch_limit (s : Settings) : Nat := s.max_concurrency * 4

/-! Helper lemmas about the staged backoff. -/

theorem walk_stages_cons_some (a : Int) (iv : ℚ) (rest : List FailureRetryStage)
    (r : Int) (d : ℚ) :
    walk_stages ({ attempts := some a, interval_seconds := iv } :: rest) r d =
      if r ≤ a then max iv 1 else walk_stages rest (r - a) d := rfl

theorem walk_stages_cons_none (iv : ℚ) (rest : List FailureRetryStage)
    (r : Int) (d : ℚ) :
    walk_stages ({ attempts := none, interval_seconds := iv } :: rest) r d =
      max iv 1 := rfl

theorem default_stages_eq :
    defaultSettings.failure_retry_stages =
      [ { attempts := some 2, interval_seconds := 30 }
      , { attempts := some 5, interval_seconds := 60 }
      , { attempts := some 12, interval_seconds := 120 }
      , { attempts := none, interval_seconds := 300 } ] := rfl

/-- The stage walk of the source agrees with the spec-modelled walk. -/
theorem walk_stages_eq_spec (stages : List FailureRetryStage) (r : Int) (d : ℚ) :
    walk_stages stages r d = spec_stage_walk d stages r := by
  induction stages generalizing r with
  | nil => rfl
  | cons stage rest ih =>
    cases h : stage.attempts with
    | none => simp [walk_stages, spec_stage_walk, h]
    | some a => simp [walk_stages, spec_stage_walk, h, ih]

/-- Closed form of the staged backoff under the default stages. -/
theorem walk_stages_default (n : Int) (d : ℚ) :
    walk_stages defaultSettings.failure_retry_stages n d =
      if n ≤ 2 then 30 else if n ≤ 7 then 60 else if n ≤ 19 then 120
      else 300 := by
  have h30 : max (30:ℚ) 1 = 30 := by norm_num
  have h60 : max (60:ℚ) 1 = 60 := by norm_num
  have h120 : max (120:ℚ) 1 = 120 := by norm_num
  have h300 : max (300:ℚ) 1 = 300 := by norm_num
  rw [default_stages_eq, walk_stages_cons_some]
  by_cases h2 : n ≤ 2
  · rw [if_pos h2, if_pos h2, h30]
  · rw [if_neg h2, if_neg h2, walk_stages_cons_some]
    by_cases h7 : n ≤ 7
    · rw [if_pos (by omega : n - 2 ≤ 5), if_pos h7, h60]
    · rw [if_neg (by omega : ¬ n - 2 ≤ 5), if_neg h7, walk_stages_cons_some]
      by_cases h19 : n ≤ 19
      · rw [if_pos (by omega : n - 2 - 5 ≤ 12), if_pos h19, h120]
      · rw [if_neg (by omega : ¬ n - 2 - 5 ≤ 12), if_neg h19,
          walk_stages_cons_none, h300]

/-- Closed form of `determine_failure_retry_interval` under defaults. -/
theorem determine_default_eq (n : Int) (d : ℚ) :
    determine_failure_retry_interval defaultSettings n d =
      if n ≤ 0 then d
      else if n ≤ 2 then 30 else if n ≤ 7 then 60 else if n ≤ 19 then 120
      else 300 := by
  unfold determine_failure_retry_interval
  by_cases h1 : n ≤ 0
  · rw [if_pos h1, if_pos h1]
  · rw [if_neg h1, if_neg h1, walk_stages_default]

/-- C2: `failure_retry_interval(n, default)` computes the staged backoff as
specified — default for `n ≤ 0`, the spec's stage walk (floored at 1 s)
otherwise — and, under the default stages `(2,30) (5,60) (12,120) (∞,300)`,
yields 30 for n in 1..2, 60 for 3..7, 120 for 8..19 and 300 for n ≥ 20. -/
theorem C2_failure_retry_interval_staged :
    (∀ (s : Settings) (n : Int) (d : ℚ),
      determine_failure_retry_interval s n d =
        failure_retry_interval_spec s.failure_retry_stages n d) ∧
    (∀ (n : Int) (d : ℚ), n ≤ 0 →
      determine_failure_retry_interval defaultSettings n d = d) ∧
    (∀ (n : Int) (d : ℚ), 1 ≤ n → n ≤ 2 →
      determine_failure_retry_interval defaultSettings n d = 30) ∧
    (∀ (n : Int) (d : ℚ), 3 ≤ n → n ≤ 7 →
      determine_failure_retry_interval defaultSettings n d = 60) ∧
    (∀ (n : Int) (d : ℚ), 8 ≤ n → n ≤ 19 →
      determine_failure_retry_interval defaultSettings n d = 120) ∧
    (∀ (n : Int) (d : ℚ), 20 ≤ n →
      determine_failure_retry_interval defaultSettings n d = 300) ∧
    (∀ (n : Int) (d : ℚ), 1 ≤ n →
      1 ≤ determine_failure_retry_interval defaultSettings n d) := by
  refine ⟨?_, ?_, ?_, ?_, ?_, ?_, ?_⟩
  · intro s n d
    unfold determine_failure_retry_interval failure_retry_interval_spec
    by_cases h : n ≤ 0
    · rw [if_pos h, if_pos h]
    · rw [if_neg h, if_neg h, walk_stages_eq_spec]
  · intro n d h
    rw [determine_default_eq, if_pos h]
  · intro n d h1 h2
    rw [determine_default_eq, if_neg (by omega), if_pos h2]
  · intro n d h1 h2
    rw [determine_default_eq, if_neg (by omega), if_neg (by omega), if_pos h2]
  · intro n d h1 h2
    rw [determine_default_eq, if_neg (by omega), if_neg (by omega),
      if_neg (by omega), if_pos h2]
  · intro n d h1
    rw [determine_default_eq, if_neg (by omega), if_neg (by omega),
      if_neg (by omega), if_neg (by omega)]
  · intro n d h1
    rw [determine_default_eq, if_neg (by omega)]
    split_ifs <;> norm_num

/-- C2 witness: the theorem applied at the concrete stage values in the spec. -/
theorem C2_witness :
    determine_failure_retry_interval defaultSettings (-1) 7 = 7 ∧
    determine_failure_retry_interval defaultSettings 2 7 = 30 ∧
    determine_failure_retry_interval defaultSettings 3 7 = 60 ∧
    determine_failure_retry_interval defaultSettings 19 7 = 120 ∧
    determine_failure_retry_interval defaultSettings 20 7 = 300 ∧
    1 ≤ determine_failure_retry_interval defaultSettings 1 7 :=
  ⟨C2_failure_retry_interval_staged.2.1 (-1) 7 (by decide),
   C2_failure_retry_interval_staged.2.2.1 2 7 (by decide) (by decide),
   C2_failure_retry_interval_staged.2.2.2.1 3 7 (by decide) (by decide),
   C2_failure_retry_interval_staged.2.2.2.2.1 19 7 (by decide) (by decide),
   C2_failure_retry_interval_staged.2.2.2.2.2.1 20 7 (by decide),
   C2_failure_retry_interval_staged.2.2.2.2.2.2 1 7 (by decide)⟩

/-- C7 counterexample: with `n1 = 0 ≤ n2 = 1` and default interval 400 the
retry interval shrinks from 400 to 30, so `failure_retry_interval` is not
monotone over all non-negative `n`. -/
theorem C7_counterexample :
    ¬ (∀ (n1 n2 : Int) (d : ℚ), 0 ≤ n1 → n1 ≤ n2 →
        determine_failure_retry_interval defaultSettings n1 d ≤
          determine_failure_retry_interval defaultSettings n2 d) := by
  intro h
  have h01 := h 0 1 400 (le_refl 0) (by norm_num)
  rw [determine_default_eq, determine_default_eq] at h01
  norm_num at h01

/-- C7 amended: `failure_retry_interval` is monotone non-decreasing in `n`
over the positive failure counts (`1 ≤ n1 ≤ n2`), for every default. -/
theorem C7_monotone_on_positive (d : ℚ) (n1 n2 : Int) (h1 : 1 ≤ n1)
    (h12 : n1 ≤ n2) :
    determine_failure_retry_interval defaultSettings n1 d ≤
      determine_failure_retry_interval defaultSettings n2 d := by
  rw [determine_default_eq, determine_default_eq]
  split_ifs <;> first | omega | norm_num

/-- C7 witness for the amended statement. -/
theorem C7_witness :
    determine_failure_retry_interval defaultSettings 1 400 ≤
      determine_failure_retry_interval defaultSettings 25 400 :=
  C7_monotone_on_positive 400 1 25 (by decide) (by decide)

/-- C3: when an HTTP response is received, the outcome is `"up"` iff
`200 ≤ status_code < 400` and `"down"` otherwise, the latency is the integer
elapsed milliseconds, the error message is null; in particular status 199,
400 and 500 give `"down"` while 200 and 399 give `"up"`. -/
theorem C3_http_response_classification :
    (∀ (status : Int) (elapsed_ms : Nat) (t : ℚ),
      ((run_http_check (.response status elapsed_ms) t).outcome = "up" ↔
        200 ≤ status ∧ status < 400) ∧
      ((run_http_check (.response status elapsed_ms) t).outcome = "down" ↔
        ¬ (200 ≤ status ∧ status < 400)) ∧
      (run_http_check (.response status elapsed_ms) t).latency_ms =
        some (elapsed_ms : Int) ∧
      (run_http_check (.response status elapsed_ms) t).error_message = none) ∧
    (run_http_check (.response 199 1) 0).outcome = "down" ∧
    (run_http_check (.response 200 1) 0).outcome = "up" ∧
    (run_http_check (.response 399 1) 0).outcome = "up" ∧
    (run_http_check (.response 400 1) 0).outcome = "down" ∧
    (run_http_check (.response 500 1) 0).outcome = "down" := by
  refine ⟨?_, rfl, rfl, rfl, rfl, rfl⟩
  intro status elapsed_ms t
  refine ⟨?_, ?_, rfl, rfl⟩
  · unfold run_http_check
    by_cases h : 200 ≤ status ∧ status < 400
    · simp [h]
    · simp [h]
  · unfold run_http_check
    by_cases h : 200 ≤ status ∧ status < 400
    · simp [h]
    · simp [h]

/-- C8: a transport/timeout error records outcome `"down"` with null status
code, null latency and the stringified error; for every result produced by
`run_http_check`, null latency, null status code and non-null error message
are pairwise equivalent. -/
theorem C8_transport_error_fields :
    (∀ (msg : String) (t : ℚ),
      run_http_check (.transport_error msg) t =
        { outcome := "down", completed_at := t, status_code := none
          latency_ms := none, error_message := some msg }) ∧
    (∀ (ev : ProbeOutcome) (t : ℚ),
      ((run_http_check ev t).latency_ms = none ↔
        (run_http_check ev t).status_code = none) ∧
      ((run_http_check ev t).status_code = none ↔
        (run_http_check ev t).error_message ≠ none)) := by
  refine ⟨fun msg t => rfl, ?_⟩
  intro ev t
  cases ev <;> simp [run_http_check]

/-- C9: `schedule_next_run` at time `t` with `jitter_seconds = 0` and outcome
`"up"` returns exactly `t + interval_seconds`. -/
theorem C9_schedule_up_no_jitter (s : Settings) (m : Monitor) (t j : ℚ)
    (hj0 : s.jitter_seconds = 0) (hlo : -s.jitter_seconds ≤ j)
    (hhi : j ≤ s.jitter_seconds) :
    schedule_next_run s m "up" t j = t + (m.interval_seconds : ℚ) := by
  have hj : j = 0 := by
    rw [hj0] at hlo hhi
    exact le_antisymm hhi (by simpa using hlo)
  unfold schedule_next_run
  rw [if_neg (by decide : ¬ ("up" : String) = "down"), hj, add_zero]

/-- The monitor used by concrete witnesses: id 1, owned by user 7, enabled,
interval 60 s, due since time 0. -/
def m0 : Monitor :=
  { id := some 1
    name := "m"
    url := "http://h/ok"
    method := "GET"
    interval_seconds := 60
    timeout_seconds := 5
    enabled := true
    owner_id := some 7
    next_run_at := some 0
    last_checked_at := none
    last_status_code := none
    last_latency_ms := none
    last_outcome := none
    consecutive_failures := 0
    created_at := 0
    updated_at := 0 }

/-- Settings with zero jitter, for the C9 witness. -/
def s_nojitter : Settings := { defaultSettings with jitter_seconds := 0 }

/-- C9 witness: the theorem at `t = 1000` on `m0`. -/
theorem C9_witness :
    schedule_next_run s_nojitter m0 "up" 1000 0 = 1000 + (m0.interval_seconds : ℚ) :=
  C9_schedule_up_no_jitter s_nojitter m0 1000 0 rfl (by norm_num [s_nojitter]) (by norm_num [s_nojitter])

/-- A "down" probe result used by concrete witnesses. -/
def r_down : CheckResult :=
  { outcome := "down"
    completed_at := 1000
    status_code := some 500
    latency_ms := some 10
    error_message := none }

/-- An "up" probe result used by concrete witnesses. -/
def r_up : CheckResult :=
  { outcome := "up"
    completed_at := 1000
    status_code := some 200
    latency_ms := some 42
    error_message := none }

/-- C4: persisting an `"up"` check resets `consecutive_failures` to 0 and sets
`last_outcome = "up"`; persisting a `"down"` check increments
`consecutive_failures` by exactly one, and the `next_run_at` written uses the
already-incremented count as the staged-backoff argument.  The legacy
`update_monitor_state` path obeys the same counter rules. -/
theorem C4_counter_and_backoff :
    (∀ (s : Settings) (m : Monitor) (r : CheckResult) (now j : ℚ),
      r.outcome = "up" →
        (persist_check_result s m r now j).1.consecutive_failures = 0 ∧
        (persist_check_result s m r now j).1.last_outcome = some "up") ∧
    (∀ (s : Settings) (m : Monitor) (r : CheckResult) (now j : ℚ),
      r.outcome = "down" →
        (persist_check_result s m r now j).1.consecutive_failures =
          m.consecutive_failures + 1) ∧
    (∀ (s : Settings) (m : Monitor) (r : CheckResult) (now j : ℚ),
      r.outcome = "down" →
        (persist_check_result s m r now j).1.next_run_at =
          some (now + determine_failure_retry_interval s
            (m.consecutive_failures + 1) (m.interval_seconds : ℚ) + j)) ∧
    (∀ (m : Monitor) (sc lm : Option Int) (em : Option String) (now j : ℚ),
      (update_monitor_state m sc lm "up" em now j).1.consecutive_failures = 0 ∧
      (update_monitor_state m sc lm "up" em now j).1.last_outcome = some "up") ∧
    (∀ (m : Monitor) (sc lm : Option Int) (em : Option String) (now j : ℚ),
      (update_monitor_state m sc lm "down" em now j).1.consecutive_failures =
        m.consecutive_failures + 1) := by
  refine ⟨?_, ?_, ?_, ?_, ?_⟩
  · intro s m r now j h
    unfold persist_check_result
    rw [h]
    exact ⟨rfl, rfl⟩
  · intro s m r now j h
    unfold persist_check_result
    rw [h]
    rfl
  · intro s m r now j h
    unfold persist_check_result schedule_next_run
    rw [h]
    rfl
  · intro m sc lm em now j
    unfold update_monitor_state
    exact ⟨rfl, rfl⟩
  · intro m sc lm em now j
    unfold update_monitor_state
    rfl

/-- C4 witness: the theorem at `m0` with concrete results. -/
theorem C4_witness :
    ((persist_check_result defaultSettings m0 r_up 1000 0).1.consecutive_failures = 0 ∧
      (persist_check_result defaultSettings m0 r_up 1000 0).1.last_outcome = some "up") ∧
    (persist_check_result defaultSettings m0 r_down 1000 0).1.consecutive_failures =
      m0.consecutive_failures + 1 ∧
    (persist_check_result defaultSettings m0 r_down 1000 0).1.next_run_at =
      some (1000 + determine_failure_retry_interval defaultSettings
        (m0.consecutive_failures + 1) (m0.interval_seconds : ℚ) + 0) :=
  ⟨C4_counter_and_backoff.1 defaultSettings m0 r_up 1000 0 rfl,
   C4_counter_and_backoff.2.1 defaultSettings m0 r_down 1000 0 rfl,
   C4_counter_and_backoff.2.2.1 defaultSettings m0 r_down 1000 0 rfl⟩

/-- The disabled monitor on which the legacy worker clears `next_run_at`. -/
def m_disabled : Monitor := { m0 with id := some 3, enabled := false }

/-- C6: the claim "no core operation ever writes a null `next_run_at`" is
contradicted by main.py `update_monitor_state`, which assigns
`next_run_at := None` whenever the reloaded row is disabled — even though
models.py declares the column non-nullable and the checks.py path always
writes a timestamp. -/
theorem C6_null_next_run_at_on_disabled :
    (update_monitor_state m_disabled (some 200) (some 42) "up" none 1000 0).1.next_run_at
        = none ∧
    (∀ (s : Settings) (m : Monitor) (r : CheckResult) (now j : ℚ),
      (persist_check_result s m r now j).1.next_run_at.isSome = true) := by
  refine ⟨rfl, ?_⟩
  intro s m r now j
  rfl

/-! Helper lemmas about the alert engine. -/

theorem truthy_str_iff (o : Option String) :
    truthy_str o = true ↔ ∃ r, o = some r ∧ r ≠ "" := by
  cases o with
  | none => simp [truthy_str]
  | some v => simp [truthy_str]

theorem maybe_send_isSome_iff (s : Settings) (checks : List MonitorCheck)
    (users : List User) (monitor : Monitor) (result : CheckResult) (now : ℚ) :
    (maybe_send_sustained_down_alert s checks users monitor result now).isSome = true ↔
      (0 < s.sustained_down_threshold ∧ 0 < s.sustained_down_window_minutes ∧
       truthy_id monitor.id = true ∧ truthy_id monitor.owner_id = true ∧
       truthy_str s.smtp_host = true ∧ truthy_str s.alert_email_from = true ∧
       (count_recent_down_checks checks (monitor.id.getD 0)
          (now - 60 * (s.sustained_down_window_minutes : ℚ)) : Int) =
         s.sustained_down_threshold ∧
       truthy_str (lookup_owner_email users monitor.owner_id) = true) := by
  unfold maybe_send_sustained_down_alert
  by_cases hA : s.sustained_down_threshold ≤ 0 ∨ s.sustained_down_window_minutes ≤ 0
  · rw [if_pos hA]
    simp only [Option.isSome_none, Bool.false_eq_true, false_iff]
    rintro ⟨hT, hW, -⟩
    rcases hA with h | h <;> omega
  · rw [if_neg hA]
    by_cases hB : ¬ truthy_id monitor.id = true ∨ ¬ truthy_id monitor.owner_id = true
    · rw [if_pos hB]
      simp only [Option.isSome_none, Bool.false_eq_true, false_iff]
      rintro ⟨-, -, hid, hoid, -⟩
      rcases hB with h | h <;> simp_all
    · rw [if_neg hB]
      by_cases hC : ¬ truthy_str s.smtp_host = true ∨ ¬ truthy_str s.alert_email_from = true
      · rw [if_pos hC]
        simp only [Option.isSome_none, Bool.false_eq_true, false_iff]
        rintro ⟨-, -, -, -, hh, hf, -⟩
        rcases hC with h | h <;> simp_all
      · rw [if_neg hC]
        by_cases hD : (count_recent_down_checks checks (monitor.id.getD 0)
            (now - 60 * (s.sustained_down_window_minutes : ℚ)) : Int) ≠
              s.sustained_down_threshold
        · rw [if_pos hD]
          simp only [Option.isSome_none, Bool.false_eq_true, false_iff]
          rintro ⟨-, -, -, -, -, -, hc, -⟩
          exact hD hc
        · rw [if_neg hD]
          push_neg at hA hB hC hD
          by_cases hE : ¬ truthy_str (lookup_owner_email users monitor.owner_id) = true
          · rw [if_pos hE]
            simp only [Option.isSome_none, Bool.false_eq_true, false_iff]
            rintro ⟨-, -, -, -, -, -, -, hr⟩
            exact hE hr
          · rw [if_neg hE]
            push_neg at hE
            simp only [Option.isSome_some, true_iff]
            exact ⟨by omega, by omega, hB.1, hB.2, hC.1, hC.2, hD, hE⟩

theorem maybe_send_to_addr (s : Settings) (checks : List MonitorCheck)
    (users : List User) (monitor : Monitor) (result : CheckResult) (now : ℚ)
    (e : EmailMessage)
    (h : maybe_send_sustained_down_alert s checks users monitor result now = some e) :
    e.to_addr = (lookup_owner_email users monitor.owner_id).getD "" := by
  unfold maybe_send_sustained_down_alert at h
  by_cases hA : s.sustained_down_threshold ≤ 0 ∨ s.sustained_down_window_minutes ≤ 0
  · rw [if_pos hA] at h
    exact Option.noConfusion h
  · rw [if_neg hA] at h
    by_cases hB : ¬ truthy_id monitor.id = true ∨ ¬ truthy_id monitor.owner_id = true
    · rw [if_pos hB] at h
      exact Option.noConfusion h
    · rw [if_neg hB] at h
      by_cases hC : ¬ truthy_str s.smtp_host = true ∨ ¬ truthy_str s.alert_email_from = true
      · rw [if_pos hC] at h
        exact Option.noConfusion h
      · rw [if_neg hC] at h
        by_cases hD : (count_recent_down_checks checks (monitor.id.getD 0)
            (now - 60 * (s.sustained_down_window_minutes : ℚ)) : Int) ≠
              s.sustained_down_threshold
        · rw [if_pos hD] at h
          exact Option.noConfusion h
        · rw [if_neg hD] at h
          by_cases hE : ¬ truthy_str (lookup_owner_email users monitor.owner_id) = true
          · rw [if_pos hE] at h
            exact Option.noConfusion h
          · rw [if_neg hE] at h
            cases h
            rfl

theorem persist_fst_id (s : Settings) (m : Monitor) (r : CheckResult)
    (now j : ℚ) : (persist_check_result s m r now j).1.id = m.id := rfl

theorem persist_fst_owner_id (s : Settings) (m : Monitor) (r : CheckResult)
    (now j : ℚ) : (persist_check_result s m r now j).1.owner_id = m.owner_id := rfl

theorem not_truthy_str_iff (o : Option String) :
    ¬ truthy_str o = true ↔ (o = none ∨ o = some "") := by
  cases o with
  | none => simp [truthy_str]
  | some v => simp [truthy_str]

/-- C1 counterexample input: SMTP configured and threshold 1. -/
def s_alert : Settings :=
  { defaultSettings with
    sustained_down_threshold := 1
    smtp_host := some "smtp.example.com"
    alert_email_from := some "alerts@example.com" }

/-- The monitor owner used by concrete inputs; deliberately inactive. -/
def u_owner : User :=
  { id := some 7
    email := "owner@example.com"
    full_name := none
    role := "user"
    is_active := false }

/-- C1: as frozen the claim is false: with threshold 1, window 60, owner_id
set, SMTP configured, and a post-insert window count exactly equal to the
threshold, no email is sent when the owner row is absent from `users`. -/
theorem C1_counterexample :
    0 < s_alert.sustained_down_threshold ∧
    0 < s_alert.sustained_down_window_minutes ∧
    truthy_id m0.id = true ∧
    truthy_id m0.owner_id = true ∧
    truthy_str s_alert.smtp_host = true ∧
    truthy_str s_alert.alert_email_from = true ∧
    (count_recent_down_checks (persist_and_alert s_alert [] [] m0 r_down 1000 0).2.1
        (m0.id.getD 0)
        ((1000 : ℚ) - 60 * (s_alert.sustained_down_window_minutes : ℚ)) : Int) =
      s_alert.sustained_down_threshold ∧
    (persist_and_alert s_alert [] [] m0 r_down 1000 0).2.2 = none := by
  refine ⟨by decide, by decide, rfl, rfl, rfl, rfl, ?_, ?_⟩
  · simp [persist_and_alert, persist_check_result, count_recent_down_checks,
      s_alert, m0, r_down, defaultSettings, List.filter]
  · simp [persist_and_alert, persist_check_result, maybe_send_sustained_down_alert,
      lookup_owner_email, truthy_id, truthy_str, s_alert, m0, r_down,
      defaultSettings, count_recent_down_checks, List.filter]

/-- C1 amended: for a down check persisted for a monitor with an id, the
alert email is sent iff threshold and window are positive, the monitor has an
owner_id, SMTP host and sender are configured, the post-insert window count
equals the threshold exactly, AND the owner row resolves to a non-empty
email. -/
theorem C1_alert_iff_on_down (s : Settings) (checks : List MonitorCheck)
    (users : List User) (m : Monitor) (r : CheckResult) (now j : ℚ)
    (hdown : r.outcome = "down") (hid : truthy_id m.id = true) :
    (persist_and_alert s checks users m r now j).2.2.isSome = true ↔
      (0 < s.sustained_down_threshold ∧ 0 < s.sustained_down_window_minutes ∧
       truthy_id m.owner_id = true ∧
       truthy_str s.smtp_host = true ∧ truthy_str s.alert_email_from = true ∧
       (count_recent_down_checks (checks ++ [(persist_check_result s m r now j).2])
          (m.id.getD 0) (now - 60 * (s.sustained_down_window_minutes : ℚ)) : Int) =
         s.sustained_down_threshold ∧
       ∃ e, lookup_owner_email users m.owner_id = some e ∧ e ≠ "") := by
  show (if r.outcome = "down" then
      maybe_send_sustained_down_alert s (checks ++ [(persist_check_result s m r now j).2])
        users (persist_check_result s m r now j).1 r now
    else none).isSome = true ↔ _
  rw [if_pos hdown, maybe_send_isSome_iff, persist_fst_id, persist_fst_owner_id,
    truthy_str_iff (lookup_owner_email users m.owner_id)]
  simp [hid]

/-- C1 witness: the amended theorem at a concrete state where the alert
fires. -/
theorem C1_witness :
    (persist_and_alert s_alert [] [u_owner] m0 r_down 1000 0).2.2.isSome = true ↔
      (0 < s_alert.sustained_down_threshold ∧
       0 < s_alert.sustained_down_window_minutes ∧
       truthy_id m0.owner_id = true ∧
       truthy_str s_alert.smtp_host = true ∧
       truthy_str s_alert.alert_email_from = true ∧
       (count_recent_down_checks
          ([] ++ [(persist_check_result s_alert m0 r_down 1000 0).2])
          (m0.id.getD 0)
          ((1000 : ℚ) - 60 * (s_alert.sustained_down_window_minutes : ℚ)) : Int) =
         s_alert.sustained_down_threshold ∧
       ∃ e, lookup_owner_email [u_owner] m0.owner_id = some e ∧ e ≠ "") :=
  C1_alert_iff_on_down s_alert [] [u_owner] m0 r_down 1000 0 rfl rfl

theorem lookup_map_is_active (users : List User) (oid : Option Nat) (b : Bool) :
    lookup_owner_email (users.map (fun u => { u with is_active := b })) oid =
      lookup_owner_email users oid := by
  unfold lookup_owner_email
  by_cases h : ¬ truthy_id oid = true
  · rw [if_pos h, if_pos h]
  · rw [if_neg h, if_neg h]
    induction users with
    | nil => rfl
    | cons u rest ih =>
      simp only [List.map_cons, List.find?]
      cases hu : (u.id == oid) with
      | true => rfl
      | false => exact ih

/-- C10: alert addressing never consults `is_active` — flipping every user's
`is_active` does not change owner resolution; every dispatched alert is
addressed to the resolved owner email; and when all other trigger conditions
hold, the alert is skipped exactly when the owner row is missing or its email
is empty. -/
theorem C10_is_active_never_consulted :
    (∀ (users : List User) (oid : Option Nat) (b : Bool),
      lookup_owner_email (users.map (fun u => { u with is_active := b })) oid =
        lookup_owner_email users oid) ∧
    (∀ (s : Settings) (checks : List MonitorCheck) (users : List User)
        (m : Monitor) (r : CheckResult) (now : ℚ) (e : EmailMessage),
      maybe_send_sustained_down_alert s checks users m r now = some e →
        e.to_addr = (lookup_owner_email users m.owner_id).getD "") ∧
    (∀ (s : Settings) (checks : List MonitorCheck) (users : List User)
        (m : Monitor) (r : CheckResult) (now : ℚ),
      0 < s.sustained_down_threshold → 0 < s.sustained_down_window_minutes →
      truthy_id m.id = true → truthy_id m.owner_id = true →
      truthy_str s.smtp_host = true → truthy_str s.alert_email_from = true →
      (count_recent_down_checks checks (m.id.getD 0)
          (now - 60 * (s.sustained_down_window_minutes : ℚ)) : Int) =
        s.sustained_down_threshold →
      (maybe_send_sustained_down_alert s checks users m r now = none ↔
        (lookup_owner_email users m.owner_id = none ∨
         lookup_owner_email users m.owner_id = some ""))) := by
  refine ⟨lookup_map_is_active, maybe_send_to_addr, ?_⟩
  intro s checks users m r now h1 h2 h3 h4 h5 h6 h7
  rw [← not_truthy_str_iff]
  constructor
  · intro hnone htr
    have hsome := (maybe_send_isSome_iff s checks users m r now).mpr
      ⟨h1, h2, h3, h4, h5, h6, h7, htr⟩
    rw [hnone] at hsome
    exact Bool.noConfusion hsome
  · intro hnt
    rcases ho : maybe_send_sustained_down_alert s checks users m r now with _ | e
    · rfl
    · have hsome : (maybe_send_sustained_down_alert s checks users m r now).isSome = true := by
        rw [ho]; rfl
      exact absurd ((maybe_send_isSome_iff s checks users m r now).mp hsome).2.2.2.2.2.2.2 hnt

/-- One prior down check inside the window, for the C10 witness. -/
def c_down : MonitorCheck :=
  { id := some 1
    monitor_id := 1
    occurred_at := 990
    outcome := "down"
    status_code := some 500
    latency_ms := some 9
    error_message := none }

/-- The window count at the C10 witness input. -/
theorem c_down_count :
    (count_recent_down_checks [c_down] (m0.id.getD 0)
        ((1000 : ℚ) - 60 * (s_alert.sustained_down_window_minutes : ℚ)) : Int) =
      s_alert.sustained_down_threshold := by
  simp [count_recent_down_checks, c_down, m0, s_alert, defaultSettings, List.filter]
  norm_num

/-- Evaluation of the alert engine at the C10 witness input: the inactive
owner still receives the alert. -/
theorem maybe_send_witness_eval :
    maybe_send_sustained_down_alert s_alert [c_down] [u_owner] m0 r_down 1000 =
      some (build_sustained_downtime_email s_alert m0 r_down "owner@example.com"
        1 60) := by
  have hc := c_down_count
  simp only [maybe_send_sustained_down_alert, lookup_owner_email, truthy_id,
    truthy_str, s_alert, m0, u_owner, defaultSettings] at hc ⊢
  simp_all [List.find?, count_recent_down_checks, c_down, List.filter]

/-- C10 witness: the theorem at a concrete state with an inactive owner —
the alert is dispatched, addressed to the owner's email. -/
theorem C10_witness :
    ((build_sustained_downtime_email s_alert m0 r_down "owner@example.com"
        1 60).to_addr =
      (lookup_owner_email [u_owner] m0.owner_id).getD "") ∧
    (maybe_send_sustained_down_alert s_alert [c_down] [u_owner] m0 r_down 1000 = none ↔
      (lookup_owner_email [u_owner] m0.owner_id = none ∨
       lookup_owner_email [u_owner] m0.owner_id = some "")) :=
  ⟨C10_is_active_never_consulted.2.1 s_alert [c_down] [u_owner] m0 r_down 1000 _
      maybe_send_witness_eval,
   C10_is_active_never_consulted.2.2 s_alert [c_down] [u_owner] m0 r_down 1000
      (by decide) (by decide) rfl rfl rfl rfl c_down_count⟩

/-! Helper lemmas about the scheduler claim. -/

/-- The comparison used by `ORDER BY next_run_at`. -/
def by_next_run (a b : Monitor) : Prop := next_run_key a ≤ next_run_key b

instance : DecidableRel by_next_run := fun a b => by
  unfold by_next_run
  infer_instance

instance : IsTotal Monitor by_next_run :=
  ⟨fun a b => le_total (next_run_key a) (next_run_key b)⟩

instance : IsTrans Monitor by_next_run := ⟨fun _ _ _ => le_trans⟩

theorem select_due_subset_due (db : List Monitor) (now : ℚ) (limit : Nat) :
    ∀ m ∈ select_due_monitors db now limit,
      m ∈ db ∧ m.enabled = true ∧ ∃ t, m.next_run_at = some t ∧ t ≤ now := by
  intro m hm
  unfold select_due_monitors at hm
  have h1 := List.mem_of_mem_take hm
  have h2 := (List.mem_insertionSort _).mp h1
  have h3 := List.mem_filter.mp h2
  obtain ⟨hdb, hdue⟩ := h3
  refine ⟨hdb, ?_⟩
  unfold monitor_due at hdue
  rw [Bool.and_eq_true] at hdue
  obtain ⟨hen, hd⟩ := hdue
  refine ⟨hen, ?_⟩
  cases hnr : m.next_run_at with
  | none => rw [hnr] at hd; exact absurd hd (by simp)
  | some t => rw [hnr] at hd; exact ⟨t, rfl, by simpa using hd⟩

theorem select_due_sorted (db : List Monitor) (now : ℚ) (limit : Nat) :
    List.Sorted by_next_run (select_due_monitors db now limit) := by
  unfold select_due_monitors
  have hs : List.Sorted by_next_run
      (List.insertionSort by_next_run (db.filter (monitor_due now))) :=
    List.sorted_insertionSort by_next_run _
  exact hs.sublist (List.take_sublist _ _)

theorem claimed_rows_updated (ids : List Nat) (cu now : ℚ) (db : List Monitor)
    (m' : Monitor)
    (hm' : m' ∈ db.map (fun m =>
      match m.id with
      | some i => if ids.contains i then apply_claim cu now m else m
      | none => m))
    (hex : ∃ i, m'.id = some i ∧ i ∈ ids) :
    m'.next_run_at = some cu ∧ m'.updated_at = now := by
  obtain ⟨m, hmdb, hfm⟩ := List.mem_map.mp hm'
  obtain ⟨i, hid, hi⟩ := hex
  cases hmid : m.id with
  | none =>
    simp only [hmid] at hfm
    rw [← hfm, hmid] at hid
    exact Option.noConfusion hid
  | some k =>
    simp only [hmid] at hfm
    by_cases hc : ids.contains k
    · rw [if_pos hc] at hfm
      rw [← hfm]
      exact ⟨rfl, rfl⟩
    · rw [if_neg hc] at hfm
      rw [← hfm] at hid
      rw [hmid] at hid
      cases hid
      have : ids.contains i = true := by
        simpa using hi
      exact absurd this hc

/-- C5: one scheduler claim iteration.  The constructed SELECT filters on
`enabled` and `next_run_at ≤ now`, orders by `next_run_at`, limits to
`max_concurrency × 4` and requests skip-locked row locks; every selected row
is enabled and due; at most the limit are selected, in ascending
`next_run_at` order; every claimed row in the committed table carries
`next_run_at = now + scheduler_claim_seconds` and `updated_at = now`, a
strict advance past each selected row's old `next_run_at`; and when nothing
is claimed the table is unchanged. -/
theorem C5_scheduler_claim_iteration (s : Settings) (db : List Monitor)
    (now : ℚ) (httl : 0 < s.scheduler_claim_seconds) :
    ((claim_select now (fetch_limit s)).where_enabled = true ∧
     (claim_select now (fetch_limit s)).where_next_run_at_le = now ∧
     (claim_select now (fetch_limit s)).order_by_next_run_at = true ∧
     (claim_select now (fetch_limit s)).select_limit = s.max_concurrency * 4 ∧
     (claim_select now (fetch_limit s)).for_update_skip_locked = true) ∧
    (∀ m ∈ select_due_monitors db now (fetch_limit s),
      m.enabled = true ∧ ∃ t, m.next_run_at = some t ∧ t ≤ now) ∧
    (select_due_monitors db now (fetch_limit s)).length ≤ s.max_concurrency * 4 ∧
    List.Sorted by_next_run (select_due_monitors db now (fetch_limit s)) ∧
    (∀ m ∈ select_due_monitors db now (fetch_limit s), ∀ t,
      m.next_run_at = some t → t < now + s.scheduler_claim_seconds) ∧
    (∀ m' ∈ (claim_due_monitors s db now (fetch_limit s)).1,
      (∃ i, m'.id = some i ∧ i ∈ (claim_due_monitors s db now (fetch_limit s)).2) →
        m'.next_run_at = some (now + s.scheduler_claim_seconds) ∧
        m'.updated_at = now) ∧
    ((claim_due_monitors s db now (fetch_limit s)).2 = [] →
      (claim_due_monitors s db now (fetch_limit s)).1 = db) := by
  refine ⟨⟨rfl, rfl, rfl, rfl, rfl⟩, ?_, ?_, ?_, ?_, ?_, ?_⟩
  · intro m hm
    exact (select_due_subset_due db now (fetch_limit s) m hm).2
  · unfold select_due_monitors
    exact List.length_take_le _ _
  · exact select_due_sorted db now (fetch_limit s)
  · intro m hm t ht
    obtain ⟨-, -, t2, ht2, hle⟩ := select_due_subset_due db now (fetch_limit s) m hm
    rw [ht] at ht2
    cases ht2
    calc t ≤ now := hle
      _ < now + s.scheduler_claim_seconds := by linarith
  · intro m' hm' hex
    simp only [claim_due_monitors] at hm' hex
    by_cases he : ((select_due_monitors db now (fetch_limit s)).filterMap
        (fun m => m.id)).isEmpty
    · rw [if_pos he] at hm'
      obtain ⟨i, -, hi⟩ := hex
      rw [List.isEmpty_iff.mp he] at hi
      exact absurd hi (List.not_mem_nil i)
    · rw [if_neg he] at hm'
      exact claimed_rows_updated _ _ _ _ _ hm' hex
  · intro h2
    simp only [claim_due_monitors] at h2 ⊢
    rw [h2]
    simp

/-- C5 witness: the theorem at the default settings on a one-row table. -/
theorem C5_witness :
    ((claim_select 1000 (fetch_limit defaultSettings)).where_enabled = true ∧
     (claim_select 1000 (fetch_limit defaultSettings)).where_next_run_at_le = 1000 ∧
     (claim_select 1000 (fetch_limit defaultSettings)).order_by_next_run_at = true ∧
     (claim_select 1000 (fetch_limit defaultSettings)).select_limit =
       defaultSettings.max_concurrency * 4 ∧
     (claim_select 1000 (fetch_limit defaultSettings)).for_update_skip_locked = true) ∧
    (∀ m ∈ select_due_monitors [m0] 1000 (fetch_limit defaultSettings),
      m.enabled = true ∧ ∃ t, m.next_run_at = some t ∧ t ≤ 1000) ∧
    (select_due_monitors [m0] 1000 (fetch_limit defaultSettings)).length ≤
      defaultSettings.max_concurrency * 4 ∧
    List.Sorted by_next_run (select_due_monitors [m0] 1000 (fetch_limit defaultSettings)) ∧
    (∀ m ∈ select_due_monitors [m0] 1000 (fetch_limit defaultSettings), ∀ t,
      m.next_run_at = some t → t < 1000 + defaultSettings.scheduler_claim_seconds) ∧
    (∀ m' ∈ (claim_due_monitors defaultSettings [m0] 1000 (fetch_limit defaultSettings)).1,
      (∃ i, m'.id = some i ∧
          i ∈ (claim_due_monitors defaultSettings [m0] 1000 (fetch_limit defaultSettings)).2) →
        m'.next_run_at = some (1000 + defaultSettings.scheduler_claim_seconds) ∧
        m'.updated_at = 1000) ∧
    ((claim_due_monitors defaultSettings [m0] 1000 (fetch_limit defaultSettings)).2 = [] →
      (claim_due_monitors defaultSettings [m0] 1000 (fetch_limit defaultSettings)).1 = [m0]) :=
  C5_scheduler_claim_iteration defaultSettings [m0] 1000 (by decide)

end Monitron
